import Mathlib

/-!
Verification of the resource-lifecycle orchestrator of `cloudbase-init-ci`
(`argus/backends/tempest/tempest_backend.py` and
`argus/backends/tempest/cloud.py`).

The cloud API is modelled as a trace of issued calls (`ApiCall`); the
orchestrator's state is the `InstanceRecord` of tracked resources.  The
responses of the external cloud are supplied by environment structures
(`SetupEnv`, `NetSetupEnv`, `NetQueryEnv`), so every function below is a
pure, executable translation of the corresponding Python method.
-/

namespace Argus

/-- A Python value as it appears in the keyword arguments of
`_create_server`; `truthy` mirrors Python truthiness for these shapes. -/
inductive PyVal where
  | pyNone : PyVal
  | str : String → PyVal
  | list : List PyVal → PyVal
  | dict : List (String × PyVal) → PyVal
  | bool : Bool → PyVal
  | int : Int → PyVal

/-- Python truthiness (`if not value`) for the supported value shapes. -/
def PyVal.truthy : PyVal → Bool
  | .pyNone => false
  | .str s => s != ""
  | .list xs => !xs.isEmpty
  | .dict xs => !xs.isEmpty
  | .bool b => b
  | .int n => n != 0

/-- The server handle kept in `self._server` (only the `id` key is read). -/
structure ServerInfo where
  id : String
deriving DecidableEq, Repr

/-- The keypair handle kept in `self._keypair`. -/
structure KeypairInfo where
  name : String
deriving DecidableEq, Repr

/-- The floating-ip dict kept in `self._floating_ip` (keys `ip` and `id`). -/
structure FloatingIpInfo where
  ip : String
  id : String
deriving DecidableEq, Repr

/-- The security-group dict kept in `self._security_group`. -/
structure SecGroupInfo where
  id : String
  name : String
deriving DecidableEq, Repr

/-- One entry of a subnet's `allocation_pools` list.  The Python dict has
keys `start` and `end` (`stop` here, `end` being reserved).  Addresses are
modelled as numeric values; see `next_ip`. -/
structure AllocationPool where
  start : Nat
  stop : Nat
deriving DecidableEq, Repr

/-- One ruleset passed to `create_security_group_rule`. -/
structure Ruleset where
  ip_protocol : String
  from_port : Int
  to_port : Int
  cidr : String
deriving DecidableEq, Repr

/-- The request sent by `servers_client.create_server`: the three explicit
arguments plus the surviving keyword arguments. -/
structure ServerRequest where
  name : String
  imageRef : String
  flavorRef : String
  kwargs : List (String × PyVal)

/-- A call issued against the cloud API (or the credential provider),
recorded in the order the Python code issues it. -/
inductive ApiCall where
  | updateSubnetDns : String → List String → ApiCall
  | createKeypair : String → ApiCall
  | createServer : ServerRequest → ApiCall
  | waitForServerStatus : String → String → ApiCall
  | createFloatingIp : ApiCall
  | associateFloatingIp : String → String → ApiCall
  | createSecurityGroup : String → String → ApiCall
  | createSecurityGroupRule : String → Ruleset → ApiCall
  | addSecurityGroup : String → String → ApiCall
  | deleteSecurityGroupRule : String → ApiCall
  | removeSecurityGroup : String → String → ApiCall
  | deleteServer : String → ApiCall
  | waitForServerTermination : String → ApiCall
  | deleteFloatingIp : String → ApiCall
  | destroyKeypair : ApiCall
  | cleanupCredentials : ApiCall
  | createNetworkResources : String → ApiCall
  | updateSubnetStatic : String → Bool → List String → ApiCall
  | showSubnet : String → ApiCall
  | updateSubnetPools : String → List AllocationPool → ApiCall
  | createSubnet6 : String → String → String → List String → String → Bool → Nat → ApiCall

/-- The mutable per-run state of `BaseTempestBackend` (`__init__`,
lines 70-77): one field per tracked cloud resource.  `networks` keeps the
list of network UUIDs (the Python code wraps each in a `{"uuid": ...}`
dict only when passing it onward). -/
structure InstanceRecord where
  server : Option ServerInfo
  keypair : Option KeypairInfo
  security_group : Option SecGroupInfo
  security_groups_rules : List String
  subnets : List String
  routers : List String
  floating_ip : Option FloatingIpInfo
  networks : Option (List String)

/-- The record as `__init__` leaves it: every field nil/empty. -/
def initRecord : InstanceRecord :=
  { server := none
    keypair := none
    security_group := none
    security_groups_rules := []
    subnets := []
    routers := []
    floating_ip := none
    networks := none }

/-- `internal_instance_id`: `self._server["id"]`; subscripting `None`
raises, hence the `Option`. -/
def internal_instance_id (r : InstanceRecord) : Option String :=
  r.server.map ServerInfo.id

/-- `BaseTempestBackend.cleanup` (lines 178-212).  Returns the trace of
issued calls together with the record as the method leaves it (the method
assigns to no tracked field, which the returned record makes explicit);
`none` models an uncaught Python exception (subscripting a nil server). -/
def cleanup (r : InstanceRecord) : Option (List ApiCall × InstanceRecord) := do
  let t1 := r.security_groups_rules.map ApiCall.deleteSecurityGroupRule
  let t2 ← match r.security_group with
    | some sg => do
        let sid ← internal_instance_id r
        pure [ApiCall.removeSecurityGroup sid sg.name]
    | none => pure []
  let t3 ← match r.server with
    | some _ => do
        let sid ← internal_instance_id r
        pure [ApiCall.deleteServer sid, ApiCall.waitForServerTermination sid]
    | none => pure []
  let t4 := match r.floating_ip with
    | some fip => [ApiCall.deleteFloatingIp fip.id]
    | none => []
  let t5 := match r.keypair with
    | some _ => [ApiCall.destroyKeypair]
    | none => []
  pure (t1 ++ t2 ++ t3 ++ t4 ++ t5 ++ [ApiCall.cleanupCredentials], r)

/-- The fixed configuration of a backend instance (constructor arguments
plus the `CONFIG`-derived members of `__init__`).  `userdata` is the value
after `__init__`'s optional base64 step; `class_name` is
`self.__class__.__name__`, used for the keypair and security-group names. -/
structure Backend where
  name : String
  userdata : PyVal
  metadata : PyVal
  availability_zone : PyVal
  image_ref : String
  flavor_ref : String
  class_name : String

/-- The cloud's responses during `setup_instance`: the identifiers handed
back by each creation call and the randomized name fragments produced by
`util.rand_name`.  `rule_ids i` is the id of the `i`-th created
security-group rule. -/
structure SetupEnv where
  primary_subnet_id : String
  primary_network_id : String
  tenant_id : String
  dns_nameservers : List String
  server_name : String
  server_id : String
  keypair : KeypairInfo
  floating_ip : FloatingIpInfo
  sg_name : String
  sg_id : String
  rule_ids : Nat → String

/-- `BaseTempestBackend._configure_networking` (lines 84-88). -/
def _configure_networking (env : SetupEnv) : List ApiCall :=
  [ApiCall.updateSubnetDns env.primary_subnet_id env.dns_nameservers]

/-- `BaseTempestBackend._create_server` (lines 90-101): drop every falsy
keyword argument, send the request, wait for the target status. -/
def _create_server (b : Backend) (env : SetupEnv) (wait_until : String)
    (kwargs : List (String × PyVal)) : List ApiCall × ServerInfo :=
  let kw := kwargs.filter fun kv => kv.2.truthy
  ([ApiCall.createServer
      { name := env.server_name ++ "-instance"
        imageRef := b.image_ref
        flavorRef := b.flavor_ref
        kwargs := kw },
    ApiCall.waitForServerStatus env.server_id wait_until],
   { id := env.server_id })

/-- `BaseTempestBackend._assign_floating_ip` (lines 103-109). -/
def _assign_floating_ip (env : SetupEnv) (serverId : String) :
    List ApiCall × FloatingIpInfo :=
  ([ApiCall.createFloatingIp,
    ApiCall.associateFloatingIp env.floating_ip.ip serverId],
   env.floating_ip)

/-- The literal `rulesets` list of
`BaseTempestBackend._add_security_group_exceptions` (lines 122-158). -/
def rulesets : List Ruleset :=
  [{ ip_protocol := "tcp", from_port := 3389, to_port := 3389, cidr := "0.0.0.0/0" },
   { ip_protocol := "tcp", from_port := 5985, to_port := 5985, cidr := "0.0.0.0/0" },
   { ip_protocol := "tcp", from_port := 5986, to_port := 5986, cidr := "0.0.0.0/0" },
   { ip_protocol := "tcp", from_port := 22, to_port := 22, cidr := "0.0.0.0/0" },
   { ip_protocol := "icmp", from_port := -1, to_port := -1, cidr := "0.0.0.0/0" }]

/-- `BaseTempestBackend._add_security_group_exceptions` (lines 120-162):
one `create_security_group_rule` call per ruleset, yielding the created
rules' ids in creation order. -/
def _add_security_group_exceptions (env : SetupEnv) (secgroupId : String) :
    List ApiCall × List String :=
  (rulesets.map (ApiCall.createSecurityGroupRule secgroupId),
   (List.range rulesets.length).map env.rule_ids)

/-- `BaseTempestBackend._create_security_groups` (lines 164-176): create
the group, consume the rule generator fully (appending each rule id), then
attach the group to the server. -/
def _create_security_groups (env : SetupEnv) (serverId : String) :
    List ApiCall × List String × SecGroupInfo :=
  let sg : SecGroupInfo := { id := env.sg_id, name := env.sg_name }
  let rt := _add_security_group_exceptions env sg.id
  ([ApiCall.createSecurityGroup env.sg_name (env.sg_name ++ " description")]
     ++ rt.1 ++ [ApiCall.addSecurityGroup serverId sg.name],
   rt.2, sg)

/-- The `networks` keyword argument of the create-server call:
`self._networks or [{"uuid": tenant_network_id}]` (lines 227-228), each
UUID wrapped in a `{"uuid": ...}` dict. -/
def networksKwarg (networks : Option (List String)) (tenantNet : String) : PyVal :=
  match networks with
  | some (n :: ns) => PyVal.list ((n :: ns).map fun x => PyVal.dict [("uuid", PyVal.str x)])
  | _ => PyVal.list [PyVal.dict [("uuid", PyVal.str tenantNet)]]

/-- `BaseTempestBackend.setup_instance` (lines 214-231): configure
networking, create the keypair, the server, the floating ip and the
security group, recording each resource as it is created. -/
def setup_instance (b : Backend) (r : InstanceRecord) (env : SetupEnv) :
    List ApiCall × InstanceRecord :=
  let t0 := _configure_networking env
  let kp := env.keypair
  let t1 := [ApiCall.createKeypair b.class_name]
  let kwargs : List (String × PyVal) :=
    [("key_name", PyVal.str kp.name),
     ("disk_config", PyVal.str "AUTO"),
     ("user_data", b.userdata),
     ("metadata", b.metadata),
     ("networks", networksKwarg r.networks env.primary_network_id),
     ("availability_zone", b.availability_zone)]
  let cs := _create_server b env "ACTIVE" kwargs
  let server := cs.2
  let af := _assign_floating_ip env server.id
  let sgc := _create_security_groups env server.id
  (t0 ++ t1 ++ cs.1 ++ af.1 ++ sgc.1,
   { r with
      keypair := some kp
      server := some server
      floating_ip := some af.2
      security_group := some sgc.2.2
      security_groups_rules := r.security_groups_rules ++ sgc.2.1 })

/-- `cloud.SUBNET6_CIDR`. -/
def SUBNET6_CIDR : String := "::ffff:a00:0/120"

/-- `cloud.DNSES6`. -/
def DNSES6 : List String := ["::ffff:808:808", "::ffff:808:404"]

/-- Modelled from the spec: `util.next_ip` is repository code not under
`src/`.  The spec says the allocation-pool start is shifted "forward by 2
addresses" ("the new start address is exactly two addresses higher"), so
addresses are modelled numerically and the shift is numeric addition. -/
def next_ip (addr : Nat) (step : Nat) : Nat :=
  addr + step

/-- How the exceptions escaping the network backend are distinguished:
the two explicit `exceptions.ArgusError` raises (the spec's
`ConfigurationError` taxonomy) plus the Python `ValueError`/`IndexError`
of `list.remove` on a missing element and of indexing an empty list. -/
inductive RunError where
  | argusNetworkResourcesNotAvailable : RunError
  | argusNetworksNotFound : RunError
  | valueError : RunError
  | indexError : RunError
deriving DecidableEq, Repr

/-- The network/subnet/router bundle returned by
`isolated_creds._create_network_resources`. -/
structure NetResources where
  network_id : String
  subnet_id : String
  router_id : String
deriving DecidableEq, Repr

/-- One entry of `networks_client.list_networks()["networks"]`
(`router_external` stands for the `"router:external"` key). -/
structure NetworkListing where
  id : String
  router_external : Bool
  tenant_id : String
deriving DecidableEq, Repr

/-- Which kind of credential provider `self._manager.isolated_creds` is:
the `isinstance(..., dynamic_creds.DynamicCredentialProvider)` test of
`NetworkWindowsBackend.setup_instance`. -/
inductive CredsProvider where
  | dynamic : CredsProvider
  | preProvisioned : CredsProvider
deriving DecidableEq, Repr

/-- The extra cloud responses consumed by `NetworkWindowsBackend`:
`listed_networks` is `list_networks()` (`none` models a response without
the `"networks"` key), `shown_pools` the `allocation_pools` returned by
`show_subnet`, `subnet6_name` the `util.rand_name` fragment of the IPv6
subnet's name. -/
structure NetSetupEnv extends SetupEnv where
  creds_provider : CredsProvider
  net_resources : NetResources
  shown_pools : List AllocationPool
  subnet6_name : String
  listed_networks : Option (List NetworkListing)

/-- `NetworkWindowsBackend._create_private_network` (lines 79-127):
obtain fresh network resources, disable DHCP and set the DNS servers on
the new subnet, shift the first allocation pool's start by 2, and create
the IPv6 subnet.  The `Bool` is `false` when `allocation_pools[0]` raises
`IndexError` (empty pool list); the trace holds the calls issued up to
that point. -/
def _create_private_network (env : NetSetupEnv) : List ApiCall × Bool :=
  let sid := env.net_resources.subnet_id
  let t0 := [ApiCall.createNetworkResources env.tenant_id,
             ApiCall.updateSubnetStatic sid false env.dns_nameservers,
             ApiCall.showSubnet sid]
  match env.shown_pools with
  | [] => (t0, false)
  | p :: rest =>
      (t0 ++ [ApiCall.updateSubnetPools sid
                ({ p with start := next_ip p.start 2 } :: rest),
              ApiCall.createSubnet6 env.net_resources.network_id SUBNET6_CIDR
                (env.subnet6_name ++ "-subnet6") DNSES6 env.tenant_id false 6],
       true)

/-- `NetworkWindowsBackend._get_networks` (lines 49-77): keep the
tenant-owned, non-external networks' ids, then move the primary isolated
network's id to the front (`list.remove` raises `ValueError` when it is
absent).  The `{"uuid": ...}` wrapping of the Python return value is done
by `networksKwarg` when the list is passed onward. -/
def _get_networks (env : NetSetupEnv) : Except RunError (List String) :=
  match env.listed_networks with
  | none => .error .argusNetworksNotFound
  | some nets =>
      let networks := (nets.filter fun net =>
        !net.router_external && net.tenant_id == env.tenant_id).map NetworkListing.id
      let head := env.primary_network_id
      if head ∈ networks then .ok (head :: networks.erase head)
      else .error .valueError

/-- `NetworkWindowsBackend.setup_instance` (lines 129-143): require a
dynamic credential provider, create the private network, compute the
attach list, then run the base `setup_instance` with it.  Returns the
issued trace, the record as left behind, and the escaping error if any. -/
def network_setup_instance (b : Backend) (r : InstanceRecord) (env : NetSetupEnv) :
    List ApiCall × InstanceRecord × Option RunError :=
  match env.creds_provider with
  | .preProvisioned => ([], r, some .argusNetworkResourcesNotAvailable)
  | .dynamic =>
      let cp := _create_private_network env
      if cp.2 then
        match _get_networks env with
        | .error e => (cp.1, r, some e)
        | .ok ns =>
            let r1 := { r with networks := some ns }
            let su := setup_instance b r1 env.toSetupEnv
            (cp.1 ++ su.1, su.2, none)
      else (cp.1, r, some .indexError)

/-- Scan for `needle` at every suffix of `hay`: Python's
`needle in hay` substring test on the character lists. -/
def infixSearch (needle : List Char) : List Char → Bool
  | [] => needle.isEmpty
  | c :: rest => needle.isPrefixOf (c :: rest) || infixSearch needle rest

/-- Python's `needle in hay` on strings. -/
def strContains (hay needle : String) : Bool :=
  infixSearch needle.toList hay.toList

/-- The decimal digit character for `d < 10`. -/
def digitChar (d : Nat) : Char :=
  Char.ofNat (48 + d)

/-- Decimal rendering of an octet value (`n < 1000` suffices here). -/
def octetStr (n : Nat) : String :=
  if n < 10 then String.mk [digitChar n]
  else if n < 100 then String.mk [digitChar (n / 10), digitChar (n % 10)]
  else String.mk [digitChar (n / 100), digitChar (n / 10 % 10), digitChar (n % 10)]

/-- Split a character list at every separator occurrence. -/
def splitOnCharAux (sep : Char) : List Char → List Char → List (List Char)
  | [], acc => [acc.reverse]
  | c :: rest, acc =>
      if c == sep then acc.reverse :: splitOnCharAux sep rest []
      else splitOnCharAux sep rest (c :: acc)

/-- Python's `s.split(sep)` for a one-character separator. -/
def pySplit (s : String) (sep : Char) : List String :=
  (splitOnCharAux sep s.data []).map String.mk

/-- Python's `s.upper()`. -/
def pyUpper (s : String) : String :=
  String.mk (s.data.map Char.toUpper)

/-- Read a decimal numeral from its characters. -/
def parseNat (s : String) : Nat :=
  s.data.foldl (fun acc c => acc * 10 + (c.toNat - 48)) 0

/-- One octet of a netmask built from the remaining prefix bits. -/
def maskOctet (bits : Nat) : Nat :=
  256 - 2 ^ (8 - min bits 8)

/-- Modelled from the spec: `util.cidr2netmask` is repository code not
under `src/`.  The spec says it "convert[s] an IPv4 CIDR to a dotted
netmask" (e.g. `10.0.0.0/24` to `255.255.255.0`): the prefix length after
the slash becomes a dotted-quad mask. -/
def cidr2netmask (cidr : String) : String :=
  let p := parseNat ((pySplit cidr '/').getD 1 "")
  octetStr (maskOctet p) ++ "." ++ octetStr (maskOctet (p - 8)) ++ "." ++
    octetStr (maskOctet (p - 16)) ++ "." ++ octetStr (maskOctet (p - 24))

/-- The NIC descriptor built by `get_network_interfaces`.  Modelled from
the spec for the key set: `util.NETWORK_KEYS` is repository code not under
`src/`; the spec's NICDescriptor lists exactly the fields this method
assigns (dhcp, dns/dns6, gateway/gateway6, netmask/netmask6, mac,
address/address6), and `dict.fromkeys` starts them all at `None`. -/
structure Nic where
  mac : Option String
  address : Option String
  address6 : Option String
  gateway : Option String
  gateway6 : Option String
  netmask : Option String
  netmask6 : Option String
  dns : Option (List String)
  dns6 : Option (List String)
  dhcp : Option Bool
deriving DecidableEq, Repr

/-- `dict.fromkeys(util.NETWORK_KEYS)`: every field `None`. -/
def emptyNic : Nic :=
  { mac := none, address := none, address6 := none, gateway := none
    gateway6 := none, netmask := none, netmask6 := none, dns := none
    dns6 := none, dhcp := none }

/-- One entry of a port's `fixed_ips` list. -/
structure FixedIp where
  subnet_id : String
  ip_address : String
deriving DecidableEq, Repr

/-- One entry of `ports_client.list_ports()["ports"]`. -/
structure Port where
  device_owner : String
  mac_address : String
  fixed_ips : List FixedIp
deriving DecidableEq, Repr

/-- The subnet dict returned by `subnets_client.show_subnet`. -/
structure SubnetDetails where
  ip_version : Nat
  enable_dhcp : Bool
  dns_nameservers : List String
  gateway_ip : String
  cidr : String
deriving DecidableEq, Repr

/-- The network dict returned by `networks_client.show_network` (only its
`subnets` key is read). -/
structure NetDetails where
  subnets : List String
deriving DecidableEq, Repr

/-- The read-only query clients used by `get_network_interfaces`. -/
structure NetQueryEnv where
  show_network : String → NetDetails
  show_subnet : String → SubnetDetails
  ports : List Port

/-- `NetworkWindowsBackend._find_ip_address` (lines 145-149): the first
fixed ip of the port lying in the given subnet. -/
def _find_ip_address (port : Port) (subnet_id : String) : Option String :=
  (port.fixed_ips.find? fun f => f.subnet_id == subnet_id).map FixedIp.ip_address

/-- Whether the port survives both `continue` guards of the port loop of
`get_network_interfaces`: compute-attached and holding a truthy address in
the subnet. -/
def portMatches (port : Port) (subnet_id : String) : Bool :=
  strContains port.device_owner "compute" &&
    match _find_ip_address port subnet_id with
    | some ip => ip != ""
    | none => false

/-- The port loop of `get_network_interfaces` (lines 180-191): skip ports
that are not compute-attached or have no (truthy) address in the subnet;
on the first match set `mac` and the suffixed address and `break`. -/
def scanPorts (nic : Nic) (v6 : Bool) (ports : List Port) (subnet_id : String) : Nic :=
  match ports with
  | [] => nic
  | port :: rest =>
      if strContains port.device_owner "compute" then
        match _find_ip_address port subnet_id with
        | some ip =>
            if ip != "" then
              let nic := { nic with mac := some (pyUpper port.mac_address) }
              if v6 then { nic with address6 := some ip }
              else { nic with address := some ip }
            else scanPorts nic v6 rest subnet_id
        | none => scanPorts nic v6 rest subnet_id
      else scanPorts nic v6 rest subnet_id

/-- The subnet loop body of `get_network_interfaces` (lines 161-191):
write the shared fields (`dhcp`, `mac`) and the suffix-selected fields of
the descriptor for one subnet, then run the port scan. -/
def processSubnet (qenv : NetQueryEnv) (nic : Nic) (subnet_id : String) : Nic :=
  let details := qenv.show_subnet subnet_id
  let v6 := details.ip_version == 6
  let nic := { nic with dhcp := some details.enable_dhcp }
  let nic := if v6 then { nic with dns6 := some details.dns_nameservers }
             else { nic with dns := some details.dns_nameservers }
  let nic := if v6 then { nic with gateway6 := some details.gateway_ip }
             else { nic with gateway := some details.gateway_ip }
  let nic := if v6 then { nic with netmask6 := some ((pySplit details.cidr '/').getD 1 "") }
             else { nic with netmask := some (cidr2netmask details.cidr) }
  scanPorts nic v6 qenv.ports subnet_id

/-- `NetworkWindowsBackend.get_network_interfaces` (lines 151-194): one
descriptor per attached network, each built by folding the subnet loop
over the network's subnets starting from the all-`None` dict. -/
def get_network_interfaces (qenv : NetQueryEnv) (networks : Option (List String)) :
    List Nic :=
  match networks with
  | none => []
  | some nets =>
      nets.map fun network_id =>
        ((qenv.show_network network_id).subnets).foldl (processSubnet qenv) emptyNic

/-! ### Trace analysis

The four lifecycle resources of §4.1, and the projections reading which
resource a creation / deletion call touches, used to compare the creation
and cleanup orders. -/

/-- The four lifecycle resources the orchestrator creates and deletes. -/
inductive Res where
  | keypair : Res
  | server : Res
  | floatingIp : Res
  | securityGroup : Res
deriving DecidableEq, Repr

/-- Which resource a call creates (rule creation counts toward the
security group it populates). -/
def creationResOf : ApiCall → Option Res
  | .createKeypair _ => some .keypair
  | .createServer _ => some .server
  | .createFloatingIp => some .floatingIp
  | .createSecurityGroup _ _ => some .securityGroup
  | .createSecurityGroupRule _ _ => some .securityGroup
  | _ => none

/-- Which resource a call deletes/detaches (rule deletion and group
detach count toward the security group). -/
def deletionResOf : ApiCall → Option Res
  | .deleteSecurityGroupRule _ => some .securityGroup
  | .removeSecurityGroup _ _ => some .securityGroup
  | .deleteServer _ => some .server
  | .deleteFloatingIp _ => some .floatingIp
  | .destroyKeypair => some .keypair
  | _ => none

/-- Collapse consecutive duplicates, so a resource touched by several
adjacent calls (the five rules of one group) appears once. -/
def squeeze : List Res → List Res
  | [] => []
  | [a] => [a]
  | a :: b :: rest => if a == b then squeeze (b :: rest) else a :: squeeze (b :: rest)

/-- The (protocol, from_port, to_port, cidr) content of a rule-creation
call, `none` for every other call. -/
def ruleSpecOf : ApiCall → Option (String × Int × Int × String)
  | .createSecurityGroupRule _ rs => some (rs.ip_protocol, rs.from_port, rs.to_port, rs.cidr)
  | _ => none

/-! ### Concrete sample inputs used by witnesses and counterexamples -/

/-- A concrete backend configuration. -/
def sampleBackend : Backend :=
  { name := "test", userdata := PyVal.pyNone, metadata := PyVal.dict []
    availability_zone := PyVal.str "nova", image_ref := "img-1"
    flavor_ref := "flv-1", class_name := "CloudScenario" }

/-- A concrete cloud-response environment for `setup_instance`. -/
def sampleEnv : SetupEnv :=
  { primary_subnet_id := "subnet-1", primary_network_id := "net-1"
    tenant_id := "tenant-1", dns_nameservers := ["8.8.8.8"]
    server_name := "test-rand", server_id := "srv-1"
    keypair := { name := "CloudScenario" }
    floating_ip := { ip := "203.0.113.5", id := "fip-1" }
    sg_name := "CloudScenario-rand", sg_id := "sg-1"
    rule_ids := fun i => "rule-" ++ toString i }

/-- A concrete environment for the network backend whose credential
provider is NOT dynamic. -/
def sampleNetEnvStatic : NetSetupEnv :=
  { toSetupEnv := sampleEnv
    creds_provider := CredsProvider.preProvisioned
    net_resources := { network_id := "pnet-1", subnet_id := "psub-1", router_id := "prt-1" }
    shown_pools := [{ start := 10, stop := 100 }]
    subnet6_name := "NetworkWindowsBackend-rand"
    listed_networks := some [] }

/-- A concrete environment for the network backend with dynamic
credentials, a non-empty allocation pool and a three-network listing. -/
def sampleNetEnv : NetSetupEnv :=
  { toSetupEnv := sampleEnv
    creds_provider := CredsProvider.dynamic
    net_resources := { network_id := "pnet-1", subnet_id := "psub-1", router_id := "prt-1" }
    shown_pools := [{ start := 10, stop := 100 }, { start := 200, stop := 220 }]
    subnet6_name := "NetworkWindowsBackend-rand"
    listed_networks := some
      [{ id := "net-ext", router_external := true, tenant_id := "tenant-1" },
       { id := "net-b", router_external := false, tenant_id := "tenant-1" },
       { id := "net-1", router_external := false, tenant_id := "tenant-1" },
       { id := "net-other", router_external := false, tenant_id := "tenant-2" }] }

/-! ### The claims -/

/-- Claim C1, counterexample: on the record produced by a concrete
`setup_instance` run, `cleanup` deletes in the order security group,
server, floating ip, keypair — which is NOT the exact reverse of the
creation order keypair, server, floating ip, security group (the reverse
would put the floating ip before the server). -/
theorem cleanup_not_exact_reverse_of_setup :
    (cleanup (setup_instance sampleBackend initRecord sampleEnv).2).map
        (fun p => squeeze (p.1.filterMap deletionResOf)) =
      some [Res.securityGroup, Res.server, Res.floatingIp, Res.keypair] ∧
    squeeze ((setup_instance sampleBackend initRecord sampleEnv).1.filterMap creationResOf) =
      [Res.keypair, Res.server, Res.floatingIp, Res.securityGroup] ∧
    [Res.securityGroup, Res.server, Res.floatingIp, Res.keypair] ≠
      [Res.keypair, Res.server, Res.floatingIp, Res.securityGroup].reverse :=
  ⟨rfl, rfl, by decide⟩

/-- Claim C1, amended: for every record produced by `setup_instance`
(creation order keypair, server, floating ip, security group), `cleanup`
issues its deletion steps in the order security group (rules, then
detach) first, then server, then floating ip, then keypair — the reverse
of the creation sequence except that the server and floating-ip deletions
are swapped. -/
theorem cleanup_order_secgroup_server_floatingip_keypair
    (b : Backend) (env : SetupEnv) :
    squeeze ((setup_instance b initRecord env).1.filterMap creationResOf) =
      [Res.keypair, Res.server, Res.floatingIp, Res.securityGroup] ∧
    (cleanup (setup_instance b initRecord env).2).map
        (fun p => squeeze (p.1.filterMap deletionResOf)) =
      some [Res.securityGroup, Res.server, Res.floatingIp, Res.keypair] :=
  ⟨rfl, rfl⟩

/-- Claim C2, counterexample: `cleanup` on the never-set-up (all-nil)
record still issues one cloud call — the unconditional release of the
tenant-isolation credentials — so it is not free of cloud calls. -/
theorem cleanup_on_empty_record_releases_credentials :
    cleanup initRecord = some ([ApiCall.cleanupCredentials], initRecord) ∧
    [ApiCall.cleanupCredentials] ≠ ([] : List ApiCall) :=
  ⟨rfl, List.cons_ne_nil _ _⟩

/-- Claim C2, amended: `cleanup` on a record with every field nil/empty
issues no delete, detach or resource-specific call; the only call made is
the unconditional release of the tenant-isolation credentials. -/
theorem cleanup_empty_record_only_credential_release (r : InstanceRecord)
    (hs : r.server = none) (hk : r.keypair = none)
    (hg : r.security_group = none) (hr : r.security_groups_rules = [])
    (hf : r.floating_ip = none) :
    cleanup r = some ([ApiCall.cleanupCredentials], r) := by
  rcases r with ⟨s, k, g, rules, subnets, routers, f, networks⟩
  simp only at hs hk hg hr hf
  subst hs hk hg hr hf
  rfl

/-- Claim C2, witness for the amended theorem at the all-nil record. -/
theorem cleanup_empty_record_only_credential_release_witness :
    cleanup initRecord = some ([ApiCall.cleanupCredentials], initRecord) :=
  cleanup_empty_record_only_credential_release initRecord rfl rfl rfl rfl rfl

/-- Claim C3, counterexample: after a concrete `setup_instance` run,
`cleanup` completes but the record's `server` field is still the created
server handle, not nil — the record does not return to nil/empty. -/
theorem cleanup_leaves_server_field_set :
    (cleanup (setup_instance sampleBackend initRecord sampleEnv).2).map
        (fun p => p.2.server) = some (some { id := "srv-1" }) ∧
    (some { id := "srv-1" } : Option ServerInfo) ≠ none :=
  ⟨rfl, Option.some_ne_none _⟩

/-- Claim C3, amended: the record starts with every field nil/empty,
`setup_instance` sets every lifecycle field to the created resource's
handle, but `cleanup` never resets a field: whenever it completes it
leaves the record exactly as it found it, so after cleanup the fields
still hold the (now deleted) resources' handles. -/
theorem record_fields_track_setup_but_cleanup_never_resets :
    (initRecord.server = none ∧ initRecord.keypair = none ∧
     initRecord.security_group = none ∧ initRecord.security_groups_rules = [] ∧
     initRecord.floating_ip = none) ∧
    (∀ b env, (setup_instance b initRecord env).2.server.isSome = true ∧
       (setup_instance b initRecord env).2.keypair.isSome = true ∧
       (setup_instance b initRecord env).2.security_group.isSome = true ∧
       (setup_instance b initRecord env).2.security_groups_rules ≠ [] ∧
       (setup_instance b initRecord env).2.floating_ip.isSome = true) ∧
    (∀ r pr, cleanup r = some pr → pr.2 = r) := by
  refine ⟨⟨rfl, rfl, rfl, rfl, rfl⟩,
    fun b env => ⟨rfl, rfl, rfl, by simp [setup_instance, _create_security_groups,
      _add_security_group_exceptions, rulesets], rfl⟩, fun r pr h => ?_⟩
  rcases r with ⟨s, k, g, rules, subnets, routers, f, networks⟩
  rcases s with _ | s <;> rcases k with _ | k <;> rcases g with _ | g <;>
    rcases f with _ | f <;>
      simp only [cleanup, internal_instance_id, Option.map, Option.bind,
        Option.pure_def, Option.some.injEq] at h <;>
    (cases h <;> rfl)

/-- Claim C3, witness for the amended theorem: the setup-produced server
field is set, and on a concrete keypair-only record `cleanup` succeeds
and returns the record unchanged. -/
theorem record_fields_track_setup_but_cleanup_never_resets_witness :
    (setup_instance sampleBackend initRecord sampleEnv).2.server.isSome = true ∧
    (([ApiCall.destroyKeypair, ApiCall.cleanupCredentials],
        { initRecord with keypair := some { name := "kp" } }) :
      List ApiCall × InstanceRecord).2 =
      { initRecord with keypair := some { name := "kp" } } :=
  ⟨(record_fields_track_setup_but_cleanup_never_resets.2.1 sampleBackend sampleEnv).1,
   record_fields_track_setup_but_cleanup_never_resets.2.2
     { initRecord with keypair := some { name := "kp" } }
     ([ApiCall.destroyKeypair, ApiCall.cleanupCredentials],
      { initRecord with keypair := some { name := "kp" } }) rfl⟩

/-- Claim C4: when the tenant-isolation credentials are not dynamically
provisioned, the network backend's `setup_instance` raises the
configuration error ("Network resources are not available") immediately:
no cloud call is issued and the record is unchanged. -/
theorem static_setup_requires_dynamic_creds (b : Backend) (r : InstanceRecord)
    (env : NetSetupEnv) (h : env.creds_provider ≠ CredsProvider.dynamic) :
    network_setup_instance b r env =
      ([], r, some RunError.argusNetworkResourcesNotAvailable) := by
  unfold network_setup_instance
  cases hc : env.creds_provider with
  | dynamic => exact absurd hc h
  | preProvisioned => rfl

/-- Claim C4, witness at a concrete non-dynamic environment. -/
theorem static_setup_requires_dynamic_creds_witness :
    network_setup_instance sampleBackend initRecord sampleNetEnvStatic =
      ([], initRecord, some RunError.argusNetworkResourcesNotAvailable) :=
  static_setup_requires_dynamic_creds sampleBackend initRecord sampleNetEnvStatic
    (by decide)

/-- Claim C5: security-group creation issues exactly five ingress rules,
in order TCP 3389, TCP 5985, TCP 5986, TCP 22 and ICMP with from/to port
-1, all with source cidr 0.0.0.0/0; all five rule creations happen before
the attach call (which is the last call of the step), five rule ids are
produced, and `setup_instance` records exactly those ids. -/
theorem security_group_five_rules_recorded_before_attach
    (env : SetupEnv) (serverId : String) :
    (_create_security_groups env serverId).1.filterMap ruleSpecOf =
      [("tcp", 3389, 3389, "0.0.0.0/0"), ("tcp", 5985, 5985, "0.0.0.0/0"),
       ("tcp", 5986, 5986, "0.0.0.0/0"), ("tcp", 22, 22, "0.0.0.0/0"),
       ("icmp", -1, -1, "0.0.0.0/0")] ∧
    (_create_security_groups env serverId).1.getLast? =
      some (ApiCall.addSecurityGroup serverId
        (_create_security_groups env serverId).2.2.name) ∧
    ((_create_security_groups env serverId).1.dropLast.filterMap ruleSpecOf).length = 5 ∧
    (_create_security_groups env serverId).2.1.length = 5 ∧
    (∀ b, (setup_instance b initRecord env).2.security_groups_rules =
      (_create_security_groups env env.server_id).2.1) :=
  ⟨rfl, rfl, rfl, rfl, fun _ => rfl⟩

/-- Claim C8: `_create_private_network` issues the subnet-update call
with the first allocation pool's start shifted forward by exactly two
addresses, the pool's end and the remaining pools unchanged (and the step
succeeds). -/
theorem allocation_pool_start_shifted_by_two (env : NetSetupEnv)
    (p : AllocationPool) (rest : List AllocationPool)
    (hp : env.shown_pools = p :: rest) :
    ApiCall.updateSubnetPools env.net_resources.subnet_id
        ({ start := p.start + 2, stop := p.stop } :: rest) ∈
      (_create_private_network env).1 ∧
    (_create_private_network env).2 = true := by
  unfold _create_private_network
  rw [hp]
  exact ⟨by simp [next_ip], rfl⟩

/-- Claim C8, witness at a concrete environment with pool start 10. -/
theorem allocation_pool_start_shifted_by_two_witness :
    ApiCall.updateSubnetPools "psub-1"
        ({ start := 12, stop := 100 } :: [{ start := 200, stop := 220 }]) ∈
      (_create_private_network sampleNetEnv).1 ∧
    (_create_private_network sampleNetEnv).2 = true :=
  allocation_pool_start_shifted_by_two sampleNetEnv
    { start := 10, stop := 100 } [{ start := 200, stop := 220 }] rfl

/-- Claim C9: the create-server request contains the generated name, the
image and flavor references, and exactly those keyword arguments whose
values are truthy — every falsy-valued argument is dropped. -/
theorem create_server_omits_falsy_kwargs (b : Backend) (env : SetupEnv)
    (wu : String) (kwargs : List (String × PyVal)) :
    ∃ req rest, (_create_server b env wu kwargs).1 = ApiCall.createServer req :: rest ∧
      req.name = env.server_name ++ "-instance" ∧
      req.imageRef = b.image_ref ∧ req.flavorRef = b.flavor_ref ∧
      req.kwargs = kwargs.filter (fun kv => kv.2.truthy) ∧
      ∀ kv, kv ∈ req.kwargs ↔ kv ∈ kwargs ∧ kv.2.truthy = true := by
  refine ⟨_, _, rfl, rfl, rfl, rfl, rfl, fun kv => ?_⟩
  simp [List.mem_filter]

/-! ### Helper lemmas about the port scan and the subnet loop -/

/-- A port failing either `continue` guard is skipped by the scan. -/
theorem scanPorts_cons_skip (nic : Nic) (v6 : Bool) (q : Port) (qs : List Port)
    (sid : String) (hq : portMatches q sid = false) :
    scanPorts nic v6 (q :: qs) sid = scanPorts nic v6 qs sid := by
  unfold portMatches at hq
  conv_lhs => rw [scanPorts]
  cases hc : strContains q.device_owner "compute" with
  | false => simp [hc]
  | true =>
      rw [hc, Bool.true_and] at hq
      cases hf : _find_ip_address q sid with
      | none => simp [hc, hf]
      | some ip =>
          rw [hf] at hq
          have hq' : ip = "" := by simpa using hq
          simp [hc, hf, hq']

/-- Ports failing either `continue` guard are skipped by the scan. -/
theorem scanPorts_skip (nic : Nic) (v6 : Bool) (pre rest : List Port) (sid : String)
    (hpre : ∀ q ∈ pre, portMatches q sid = false) :
    scanPorts nic v6 (pre ++ rest) sid = scanPorts nic v6 rest sid := by
  induction pre with
  | nil => rfl
  | cons q qs ih =>
      rw [List.cons_append,
        scanPorts_cons_skip nic v6 q (qs ++ rest) sid (hpre q (List.mem_cons_self q qs)),
        ih fun x hx => hpre x (List.mem_cons_of_mem q hx)]

/-- The first port passing both guards ends the scan (`break`), writing
the uppercased MAC and the suffix-selected address. -/
theorem scanPorts_match (nic : Nic) (v6 : Bool) (p : Port) (post : List Port)
    (sid ip : String)
    (hc : strContains p.device_owner "compute" = true)
    (hf : _find_ip_address p sid = some ip) (hip : ip ≠ "") :
    scanPorts nic v6 (p :: post) sid =
      if v6 then { nic with mac := some (pyUpper p.mac_address), address6 := some ip }
      else { nic with mac := some (pyUpper p.mac_address), address := some ip } := by
  have hbne : (ip != "") = true := bne_iff_ne.mpr hip
  unfold scanPorts
  rw [hc, hf]
  simp only [hbne, if_true]

/-- The port scan never writes `netmask6`. -/
theorem scanPorts_netmask6 (nic : Nic) (v6 : Bool) (ports : List Port) (sid : String) :
    (scanPorts nic v6 ports sid).netmask6 = nic.netmask6 := by
  induction ports generalizing nic with
  | nil => rfl
  | cons q qs ih =>
      unfold scanPorts
      cases hc : strContains q.device_owner "compute" with
      | false => simpa [hc] using ih nic
      | true =>
          cases hf : _find_ip_address q sid with
          | none => simpa [hc, hf] using ih nic
          | some ip =>
              cases hbe : ip != "" with
              | false => simpa [hc, hf, hbe] using ih nic
              | true => cases v6 <;> simp [hc, hf, hbe]

/-- The subnet loop body for an IPv4 subnet: the unsuffixed fields are
written, then the ports are scanned with the v4 address slot. -/
theorem processSubnet_v4 (qenv : NetQueryEnv) (nic : Nic) (sid : String)
    (h4 : (qenv.show_subnet sid).ip_version ≠ 6) :
    processSubnet qenv nic sid =
      scanPorts { nic with
          dhcp := some (qenv.show_subnet sid).enable_dhcp
          dns := some (qenv.show_subnet sid).dns_nameservers
          gateway := some (qenv.show_subnet sid).gateway_ip
          netmask := some (cidr2netmask (qenv.show_subnet sid).cidr) }
        false qenv.ports sid := by
  have hbe : ((qenv.show_subnet sid).ip_version == 6) = false :=
    beq_eq_false_iff_ne.mpr h4
  simp only [processSubnet, hbe, Bool.false_eq_true, if_false]

/-- The subnet loop body for an IPv6 subnet: `dhcp` is still rewritten,
the suffixed fields are written, the netmask keeps the prefix length. -/
theorem processSubnet_v6 (qenv : NetQueryEnv) (nic : Nic) (sid : String)
    (h6 : (qenv.show_subnet sid).ip_version = 6) :
    processSubnet qenv nic sid =
      scanPorts { nic with
          dhcp := some (qenv.show_subnet sid).enable_dhcp
          dns6 := some (qenv.show_subnet sid).dns_nameservers
          gateway6 := some (qenv.show_subnet sid).gateway_ip
          netmask6 := some ((pySplit (qenv.show_subnet sid).cidr '/').getD 1 "") }
        true qenv.ports sid := by
  have hbe : ((qenv.show_subnet sid).ip_version == 6) = true := beq_iff_eq.mpr h6
  simp only [processSubnet, hbe, if_true]

/-- Claim C6: whenever `_get_networks` succeeds (and the cloud listing
contains no duplicate network ids), the returned attach list has the
primary isolated network's id first, contains only tenant-owned
non-external networks, and has no duplicate ids. -/
theorem get_networks_primary_first_tenant_only_nodup (env : NetSetupEnv)
    (nets : List NetworkListing) (ns : List String)
    (hl : env.listed_networks = some nets)
    (hnd : (nets.map NetworkListing.id).Nodup)
    (hok : _get_networks env = Except.ok ns) :
    ns.head? = some env.primary_network_id ∧
    (∀ i ∈ ns, ∃ net ∈ nets, net.id = i ∧ net.router_external = false ∧
      net.tenant_id = env.tenant_id) ∧
    ns.Nodup := by
  have hfil : ∀ i, i ∈ (nets.filter fun net =>
      !net.router_external && net.tenant_id == env.tenant_id).map NetworkListing.id →
      ∃ net ∈ nets, net.id = i ∧ net.router_external = false ∧
        net.tenant_id = env.tenant_id := by
    intro i hi
    rcases List.mem_map.mp hi with ⟨net, hmem, hid⟩
    rcases List.mem_filter.mp hmem with ⟨hnets, hpred⟩
    simp only [Bool.and_eq_true, Bool.not_eq_true', beq_iff_eq] at hpred
    exact ⟨net, hnets, hid, hpred.1, hpred.2⟩
  have hnd2 : ((nets.filter fun net =>
      !net.router_external && net.tenant_id == env.tenant_id).map
        NetworkListing.id).Nodup :=
    hnd.sublist ((List.filter_sublist nets).map NetworkListing.id)
  simp only [_get_networks, hl] at hok
  split at hok
  case isTrue hmem =>
    rw [Except.ok.injEq] at hok
    subst hok
    refine ⟨rfl, fun i hi => ?_, ?_⟩
    · rcases List.mem_cons.mp hi with h1 | h2
      · exact h1 ▸ hfil _ hmem
      · exact hfil _ (List.mem_of_mem_erase h2)
    · exact List.nodup_cons.mpr ⟨hnd2.not_mem_erase, hnd2.erase _⟩
  case isFalse _ => cases hok

/-- Claim C6, witness: at a concrete four-network listing (one external,
one foreign-tenant) the attach list is the primary network first, then
the other tenant network, with the stated properties. -/
theorem get_networks_primary_first_tenant_only_nodup_witness :
    (["net-1", "net-b"] : List String).head? = some sampleNetEnv.primary_network_id ∧
    (∀ i ∈ (["net-1", "net-b"] : List String), ∃ net ∈
        [({ id := "net-ext", router_external := true, tenant_id := "tenant-1" } : NetworkListing),
         { id := "net-b", router_external := false, tenant_id := "tenant-1" },
         { id := "net-1", router_external := false, tenant_id := "tenant-1" },
         { id := "net-other", router_external := false, tenant_id := "tenant-2" }],
      net.id = i ∧ net.router_external = false ∧
        net.tenant_id = sampleNetEnv.tenant_id) ∧
    (["net-1", "net-b"] : List String).Nodup :=
  get_networks_primary_first_tenant_only_nodup sampleNetEnv
    [{ id := "net-ext", router_external := true, tenant_id := "tenant-1" },
     { id := "net-b", router_external := false, tenant_id := "tenant-1" },
     { id := "net-1", router_external := false, tenant_id := "tenant-1" },
     { id := "net-other", router_external := false, tenant_id := "tenant-2" }]
    ["net-1", "net-b"] rfl (by decide) rfl

/-- Claim C7: for an IPv4 subnet whose first matching compute port (every
earlier port fails a guard) holds address `ip`, the produced descriptor
carries the subnet's DHCP flag, the dotted netmask converted from the
CIDR, the port's uppercased MAC and the matched address — regardless of
any later matching ports; and for an IPv6 subnet the netmask field keeps
the prefix length taken after the slash of the CIDR. -/
theorem nic_v4_descriptor (qenv : NetQueryEnv) (netId sid : String)
    (pre post : List Port) (p : Port) (ip : String)
    (hnet : (qenv.show_network netId).subnets = [sid])
    (h4 : (qenv.show_subnet sid).ip_version ≠ 6)
    (hports : qenv.ports = pre ++ p :: post)
    (hpre : ∀ q ∈ pre, portMatches q sid = false)
    (hc : strContains p.device_owner "compute" = true)
    (hf : _find_ip_address p sid = some ip)
    (hip : ip ≠ "") :
    get_network_interfaces qenv (some [netId]) =
      [{ emptyNic with
          dhcp := some (qenv.show_subnet sid).enable_dhcp
          dns := some (qenv.show_subnet sid).dns_nameservers
          gateway := some (qenv.show_subnet sid).gateway_ip
          netmask := some (cidr2netmask (qenv.show_subnet sid).cidr)
          mac := some (pyUpper p.mac_address)
          address := some ip }] ∧
    (∀ sid6 nic0, (qenv.show_subnet sid6).ip_version = 6 →
      (processSubnet qenv nic0 sid6).netmask6 =
        some ((pySplit (qenv.show_subnet sid6).cidr '/').getD 1 "")) := by
  constructor
  · simp only [get_network_interfaces, hnet, List.map_cons, List.map_nil,
      List.foldl_cons, List.foldl_nil]
    rw [processSubnet_v4 qenv emptyNic sid h4, hports,
      scanPorts_skip _ false pre (p :: post) sid hpre,
      scanPorts_match _ false p post sid ip hc hf hip]
    rfl
  · intro sid6 nic0 h6
    rw [processSubnet_v6 qenv nic0 sid6 h6, scanPorts_netmask6]

/-- Concrete query environment for the C7 witness: one network with one
IPv4 subnet; the port list has a non-compute port first, then the
matching compute port, then a second matching compute port that must be
ignored (first match wins). -/
def qenvC7 : NetQueryEnv :=
  { show_network := fun _ => { subnets := ["s4"] }
    show_subnet := fun sid =>
      if sid == "s4" then
        { ip_version := 4, enable_dhcp := false, dns_nameservers := ["8.8.8.8"]
          gateway_ip := "10.0.0.1", cidr := "10.0.0.0/24" }
      else
        { ip_version := 6, enable_dhcp := false, dns_nameservers := DNSES6
          gateway_ip := "::ffff:a00:1", cidr := "::ffff:a00:0/120" }
    ports :=
      [{ device_owner := "network:dhcp", mac_address := "11:11:11:11:11:11"
         fixed_ips := [{ subnet_id := "s4", ip_address := "10.0.0.2" }] },
       { device_owner := "compute:nova", mac_address := "aa:bb:cc:dd:ee:ff"
         fixed_ips := [{ subnet_id := "s4", ip_address := "10.0.0.5" }] },
       { device_owner := "compute:nova", mac_address := "22:22:22:22:22:22"
         fixed_ips := [{ subnet_id := "s4", ip_address := "10.0.0.77" }] }] }

/-- Claim C7, witness: the spec's concrete example — dhcp `false`,
netmask `255.255.255.0` from `10.0.0.0/24`, MAC uppercased to
`AA:BB:CC:DD:EE:FF`, address `10.0.0.5` — and prefix length `120` kept
for the IPv6 subnet. -/
theorem nic_v4_descriptor_witness :
    get_network_interfaces qenvC7 (some ["net-1"]) =
      [{ mac := some "AA:BB:CC:DD:EE:FF", address := some "10.0.0.5"
         address6 := none, gateway := some "10.0.0.1", gateway6 := none
         netmask := some "255.255.255.0", netmask6 := none
         dns := some ["8.8.8.8"], dns6 := none, dhcp := some false }] ∧
    (processSubnet qenvC7 emptyNic "s6").netmask6 = some "120" := by
  have h := nic_v4_descriptor qenvC7 "net-1" "s4"
    [{ device_owner := "network:dhcp", mac_address := "11:11:11:11:11:11"
       fixed_ips := [{ subnet_id := "s4", ip_address := "10.0.0.2" }] }]
    [{ device_owner := "compute:nova", mac_address := "22:22:22:22:22:22"
       fixed_ips := [{ subnet_id := "s4", ip_address := "10.0.0.77" }] }]
    { device_owner := "compute:nova", mac_address := "aa:bb:cc:dd:ee:ff"
      fixed_ips := [{ subnet_id := "s4", ip_address := "10.0.0.5" }] }
    "10.0.0.5" rfl (by decide) rfl (by decide) (by decide) rfl (by decide)
  refine ⟨?_, ?_⟩
  · rw [h.1]
    decide
  · rw [h.2 "s6" emptyNic (by decide)]
    decide

/-- Claim C10: when a network has an IPv4 subnet followed by an IPv6
subnet (each with a first-matching compute port), the single returned
descriptor's shared fields `dhcp` and `mac` hold the values derived from
the last subnet and its matching port, while the suffixed v4/v6 fields
(dns/dns6, gateway/gateway6, netmask/netmask6, address/address6)
coexist. -/
theorem nic_last_subnet_overwrites_shared_fields (qenv : NetQueryEnv)
    (netId s4 s6 : String) (pre4 post4 pre6 post6 : List Port)
    (p4 p6 : Port) (ip4 ip6 : String)
    (hnet : (qenv.show_network netId).subnets = [s4, s6])
    (h4 : (qenv.show_subnet s4).ip_version ≠ 6)
    (h6 : (qenv.show_subnet s6).ip_version = 6)
    (hports4 : qenv.ports = pre4 ++ p4 :: post4)
    (hpre4 : ∀ q ∈ pre4, portMatches q s4 = false)
    (hc4 : strContains p4.device_owner "compute" = true)
    (hf4 : _find_ip_address p4 s4 = some ip4) (hip4 : ip4 ≠ "")
    (hports6 : qenv.ports = pre6 ++ p6 :: post6)
    (hpre6 : ∀ q ∈ pre6, portMatches q s6 = false)
    (hc6 : strContains p6.device_owner "compute" = true)
    (hf6 : _find_ip_address p6 s6 = some ip6) (hip6 : ip6 ≠ "") :
    get_network_interfaces qenv (some [netId]) =
      [{ mac := some (pyUpper p6.mac_address)
         address := some ip4
         address6 := some ip6
         gateway := some (qenv.show_subnet s4).gateway_ip
         gateway6 := some (qenv.show_subnet s6).gateway_ip
         netmask := some (cidr2netmask (qenv.show_subnet s4).cidr)
         netmask6 := some ((pySplit (qenv.show_subnet s6).cidr '/').getD 1 "")
         dns := some (qenv.show_subnet s4).dns_nameservers
         dns6 := some (qenv.show_subnet s6).dns_nameservers
         dhcp := some (qenv.show_subnet s6).enable_dhcp }] := by
  simp only [get_network_interfaces, hnet, List.map_cons, List.map_nil,
    List.foldl_cons, List.foldl_nil]
  rw [processSubnet_v4 qenv emptyNic s4 h4, hports4,
    scanPorts_skip _ false pre4 (p4 :: post4) s4 hpre4,
    scanPorts_match _ false p4 post4 s4 ip4 hc4 hf4 hip4]
  rw [processSubnet_v6 qenv _ s6 h6, hports6,
    scanPorts_skip _ true pre6 (p6 :: post6) s6 hpre6,
    scanPorts_match _ true p6 post6 s6 ip6 hc6 hf6 hip6]
  rfl

/-- Concrete query environment for the C10 witness: one network carrying
an IPv4 and an IPv6 subnet with differing DHCP flags, and one matching
compute port per subnet with differing MACs. -/
def qenvC10 : NetQueryEnv :=
  { show_network := fun _ => { subnets := ["s4", "s6"] }
    show_subnet := fun sid =>
      if sid == "s4" then
        { ip_version := 4, enable_dhcp := true, dns_nameservers := ["8.8.8.8"]
          gateway_ip := "10.0.0.1", cidr := "10.0.0.0/24" }
      else
        { ip_version := 6, enable_dhcp := false, dns_nameservers := DNSES6
          gateway_ip := "::ffff:a00:1", cidr := "::ffff:a00:0/120" }
    ports :=
      [{ device_owner := "compute:nova", mac_address := "aa:aa:aa:aa:aa:aa"
         fixed_ips := [{ subnet_id := "s4", ip_address := "10.0.0.5" }] },
       { device_owner := "compute:nova", mac_address := "bb:bb:bb:bb:bb:bb"
         fixed_ips := [{ subnet_id := "s6", ip_address := "::ffff:a00:5" }] }] }

/-- Claim C10, witness: with the IPv4 subnet having `enable_dhcp = true`
and the IPv6 subnet `enable_dhcp = false`, the descriptor ends with
`dhcp = false` and the second port's MAC — the last subnet's values — while
the v4 and v6 suffixed fields coexist. -/
theorem nic_last_subnet_overwrites_shared_fields_witness :
    get_network_interfaces qenvC10 (some ["net-1"]) =
      [{ mac := some "BB:BB:BB:BB:BB:BB"
         address := some "10.0.0.5", address6 := some "::ffff:a00:5"
         gateway := some "10.0.0.1", gateway6 := some "::ffff:a00:1"
         netmask := some "255.255.255.0", netmask6 := some "120"
         dns := some ["8.8.8.8"], dns6 := some DNSES6
         dhcp := some false }] := by
  have h := nic_last_subnet_overwrites_shared_fields qenvC10 "net-1" "s4" "s6"
    [] [{ device_owner := "compute:nova", mac_address := "bb:bb:bb:bb:bb:bb"
          fixed_ips := [{ subnet_id := "s6", ip_address := "::ffff:a00:5" }] }]
    [{ device_owner := "compute:nova", mac_address := "aa:aa:aa:aa:aa:aa"
       fixed_ips := [{ subnet_id := "s4", ip_address := "10.0.0.5" }] }] []
    { device_owner := "compute:nova", mac_address := "aa:aa:aa:aa:aa:aa"
      fixed_ips := [{ subnet_id := "s4", ip_address := "10.0.0.5" }] }
    { device_owner := "compute:nova", mac_address := "bb:bb:bb:bb:bb:bb"
      fixed_ips := [{ subnet_id := "s6", ip_address := "::ffff:a00:5" }] }
    "10.0.0.5" "::ffff:a00:5"
    rfl (by decide) (by decide) rfl (by decide) (by decide) rfl (by decide)
    rfl (by decide) (by decide) rfl (by decide)
  rw [h]
  decide

end Argus
